import Mathlib

/-!
Shallow embedding of the car-detection service (`src/car_detector.py` and
`src/api.py`) and proofs about its filtering pipeline and HTTP handlers.

Modelling conventions:
* Confidence scores and box coordinates are rationals (`ℚ`); the claims under
  study are label/structure properties, never floating-point arithmetic.
* The filesystem is the list of existing paths; file contents are irrelevant
  to the embedded logic (image decoding is an abstract parameter).
* The external DETR model + processor pipeline (decode, inference,
  post-processing) is abstracted as two function parameters: `decode`
  (Image.open + RGB conversion, which may fail) and `infer` (the model run
  plus `post_process_object_detection` at a given threshold, which yields the
  raw detections). The code under test is everything downstream of those
  calls, embedded faithfully.
* Python exceptions are `Except` values (`PyError`); an uncaught exception in
  a FastAPI handler body, or a raised `HTTPException`, is an `httpError`
  response.
-/

/-- One raw detection as produced by `post_process_object_detection`: a
zipped (score, label, box) triple from `results["scores"]`,
`results["labels"]`, `results["boxes"]` in `detect_cars`. -/
structure RawDetection where
  score : ℚ
  label : ℕ
  box : List ℚ
deriving DecidableEq, Repr

/-- One output record appended by the car-filter loop in
`CarDetector.detect_cars` (`{"label": ..., "confidence": ..., "bbox": ...,
"bbox_format": "xyxy"}`). -/
structure CarDetection where
  label : String
  confidence : ℚ
  bbox : List ℚ
  bbox_format : String
deriving DecidableEq, Repr

/-- Python exceptions that the embedded code can raise. -/
inductive PyError where
  | fileNotFound (path : String)
  | keyError (label : ℕ)
  | processing (msg : String)
deriving DecidableEq, Repr

/-- The `str(e)` rendering used when a handler wraps an exception into an
HTTP 500 detail string. `FileNotFoundError` is raised in `detect_cars` with
message `f"Image file not found: \x7bimage_path\x7d"`. -/
def PyError.toMessage : PyError → String
  | .fileNotFound path => "Image file not found: " ++ path
  | .keyError label => toString label
  | .processing msg => msg

/-- State of a constructed `CarDetector`: the configuration plus the loaded
model's label vocabulary (`self.model.config.id2label`, a dict from class id
to name). `model_loaded` models `self.model is not None`. -/
structure CarDetector where
  model_name : String
  confidence_threshold : ℚ
  id2label : List (ℕ × String)
  model_loaded : Bool

/-- The filesystem, as the list of currently existing paths. -/
abbrev FileSystem := List String

/-- The car-extraction loop of `CarDetector.detect_cars`: iterate over the
zipped raw detections, resolve each label id through `id2label` (a dict
lookup, which raises `KeyError` on a missing id), and when the resolved name
equals `"car"` set `has_cars` and append the formatted record. -/
def carLoop (id2label : List (ℕ × String)) :
    List RawDetection → Bool → List CarDetection →
      Except PyError (Bool × List CarDetection)
  | [], has_cars, car_detections => .ok (has_cars, car_detections)
  | d :: rest, has_cars, car_detections =>
    match List.lookup d.label id2label with
    | none => .error (.keyError d.label)
    | some label_name =>
      if label_name = "car" then
        carLoop id2label rest true
          (car_detections ++
            [{ label := label_name, confidence := d.score, bbox := d.box,
               bbox_format := "xyxy" }])
      else
        carLoop id2label rest has_cars car_detections

/-- Entry into the loop with `car_detections = []` and `has_cars = False`,
exactly as `detect_cars` initializes them. -/
def extractCars (id2label : List (ℕ × String)) (dets : List RawDetection) :
    Except PyError (Bool × List CarDetection) :=
  carLoop id2label dets false []

/-- Does this raw detection's resolved label equal `"car"`?  (The loop's
branch condition, as a boolean predicate on one detection.) -/
def isCarB (id2label : List (ℕ × String)) (d : RawDetection) : Bool :=
  match List.lookup d.label id2label with
  | some label_name => label_name == "car"
  | none => false

/-- The record the loop appends for a car-labeled raw detection. -/
def mkCarDetection (d : RawDetection) : CarDetection :=
  { label := "car", confidence := d.score, bbox := d.box,
    bbox_format := "xyxy" }

/-- Shallow embedding of `CarDetector.detect_cars`: check the path exists
(else raise `FileNotFoundError`), decode the image, run inference and
post-processing at `self.confidence_threshold`, then run the car filter.
Exceptions inside the `try` are logged and re-raised, so they propagate
unchanged. -/
def CarDetector.detect_cars {Image : Type} (self : CarDetector)
    (fs : FileSystem) (decode : String → Except String Image)
    (infer : Image → ℚ → List RawDetection) (image_path : String) :
    Except PyError (Bool × List CarDetection) :=
  if image_path ∈ fs then
    match decode image_path with
    | .error e => .error (.processing e)
    | .ok image => extractCars self.id2label (infer image self.confidence_threshold)
  else
    .error (.fileNotFound ("Image file not found: " ++ image_path))

/-- Running `detect_cars` as a method call: the body contains no assignment
to `self`, so the post-call detector state is the pre-call state. -/
def CarDetector.detect_cars_run {Image : Type} (self : CarDetector)
    (fs : FileSystem) (decode : String → Except String Image)
    (infer : Image → ℚ → List RawDetection) (image_path : String) :
    Except PyError (Bool × List CarDetection) × CarDetector :=
  (self.detect_cars fs decode infer image_path, self)

/-- Shallow embedding of `CarDetector.detect_car_simple`: destructure the
pair returned by `detect_cars` and return its first component; an exception
from `detect_cars` propagates. -/
def CarDetector.detect_car_simple {Image : Type} (self : CarDetector)
    (fs : FileSystem) (decode : String → Except String Image)
    (infer : Image → ℚ → List RawDetection) (image_path : String) :
    Except PyError Bool :=
  (self.detect_cars fs decode infer image_path).map Prod.fst

/-- Response body of `GET /model-info`. -/
structure ModelInfo where
  model_name : String
  confidence_threshold : ℚ
  available_labels : Option (List String)
deriving DecidableEq, Repr

/-- Shallow embedding of `CarDetector.get_model_info`:
`available_labels = list(self.model.config.id2label.values()) if self.model
else None`. -/
def CarDetector.get_model_info (self : CarDetector) : ModelInfo :=
  { model_name := self.model_name,
    confidence_threshold := self.confidence_threshold,
    available_labels :=
      if self.model_loaded then some (self.id2label.map Prod.snd) else none }

/-- The module-level initialization in `api.py`: `CarDetector()` inside a
`try`; on any exception the handle is set to `None` and the process
continues. -/
def initDetector (load : Except String CarDetector) : Option CarDetector :=
  match load with
  | .ok d => some d
  | .error _ => none

/-- An uploaded file as seen by a handler. -/
structure UploadFile where
  filename : String
  content_type : String
  content : List ℕ
deriving DecidableEq, Repr

/-- Outcome of a FastAPI handler: a JSON body, or an HTTP error response
(from a raised `HTTPException`). -/
inductive HandlerResult (α : Type) where
  | ok (body : α)
  | httpError (status : ℕ) (detail : String)
deriving DecidableEq, Repr

/-- Success body of `POST /detect-car`. -/
structure DetectCarBody where
  filename : String
  has_cars : Bool
  car_count : ℕ
  detections : List CarDetection
  model_name : String
  confidence_threshold : ℚ
deriving DecidableEq, Repr

/-- Success body of `POST /detect-car-simple`. -/
structure DetectCarSimpleBody where
  filename : String
  car_detected : Bool
deriving DecidableEq, Repr

/-- Equality of embedded Python results is decidable, so witnesses can be
checked by evaluation. -/
instance {ε α : Type} [DecidableEq ε] [DecidableEq α] :
    DecidableEq (Except ε α) := fun x y =>
  match x, y with
  | .ok a, .ok b =>
    if h : a = b then .isTrue (h ▸ rfl)
    else .isFalse (fun he => h (Except.ok.inj he))
  | .error a, .error b =>
    if h : a = b then .isTrue (h ▸ rfl)
    else .isFalse (fun he => h (Except.error.inj he))
  | .ok _, .error _ => .isFalse (fun h => Except.noConfusion h)
  | .error _, .ok _ => .isFalse (fun h => Except.noConfusion h)

/-- Python's `str.startswith`, on the string's character list (kept
evaluable by the kernel). -/
def strStartsWith (s p : String) : Bool := p.data.isPrefixOf s.data

/-- The `finally` block of both upload handlers:
`if os.path.exists(tmp_file_path): os.unlink(tmp_file_path)`. -/
def cleanupTemp (fs : FileSystem) (tmp_path : String) : FileSystem :=
  if tmp_path ∈ fs then fs.filter (fun p => p != tmp_path) else fs

/-- Shallow embedding of the `GET /model-info` handler: `if not detector:`
raise 500, else return the detector's info. -/
def api.get_model_info (detector : Option CarDetector) :
    HandlerResult ModelInfo :=
  match detector with
  | none => .httpError 500 "Model not loaded"
  | some det => .ok det.get_model_info

/-- Shallow embedding of the `POST /detect-car` handler. Order of checks as
in the source: `if not detector:` raise 500 first, then the content-type
check, then write the upload to a fresh temp path, run `detect_cars` inside
`try`, wrap any exception into a 500, and in `finally` delete the temp file
on both paths. `tmp_path` is the name handed out by
`tempfile.NamedTemporaryFile`. -/
def api.detect_car {Image : Type} (detector : Option CarDetector)
    (decode : String → Except String Image)
    (infer : Image → ℚ → List RawDetection)
    (fs : FileSystem) (tmp_path : String) (file : UploadFile) :
    HandlerResult DetectCarBody × FileSystem :=
  match detector with
  | none => (.httpError 500 "Model not loaded", fs)
  | some det =>
    if !(strStartsWith file.content_type "image/") then
      (.httpError 400 "File must be an image", fs)
    else
      match det.detect_cars (fs ++ [tmp_path]) decode infer tmp_path with
      | .ok res =>
        (.ok { filename := file.filename, has_cars := res.1,
               car_count := res.2.length, detections := res.2,
               model_name := det.model_name,
               confidence_threshold := det.confidence_threshold },
         cleanupTemp (fs ++ [tmp_path]) tmp_path)
      | .error e =>
        (.httpError 500 ("Error processing image: " ++ e.toMessage),
         cleanupTemp (fs ++ [tmp_path]) tmp_path)

/-- Shallow embedding of the `POST /detect-car-simple` handler: same checks
and temp-file lifecycle, but calls `detect_car_simple` and returns the
reduced body. -/
def api.detect_car_simple {Image : Type} (detector : Option CarDetector)
    (decode : String → Except String Image)
    (infer : Image → ℚ → List RawDetection)
    (fs : FileSystem) (tmp_path : String) (file : UploadFile) :
    HandlerResult DetectCarSimpleBody × FileSystem :=
  match detector with
  | none => (.httpError 500 "Model not loaded", fs)
  | some det =>
    if !(strStartsWith file.content_type "image/") then
      (.httpError 400 "File must be an image", fs)
    else
      match det.detect_car_simple (fs ++ [tmp_path]) decode infer tmp_path with
      | .ok has_cars =>
        (.ok { filename := file.filename, car_detected := has_cars },
         cleanupTemp (fs ++ [tmp_path]) tmp_path)
      | .error e =>
        (.httpError 500 ("Error processing image: " ++ e.toMessage),
         cleanupTemp (fs ++ [tmp_path]) tmp_path)

/-! ### Helper lemmas about the car-filter loop -/

/-- When every label id in the input is in the vocabulary, the loop computes
the filter-and-format of the input, appended to the accumulator, and ors the
non-emptiness of the filtered list into the running flag. -/
theorem carLoop_eq_of_cov (id2label : List (ℕ × String))
    (dets : List RawDetection) (hc : Bool) (acc : List CarDetection)
    (hcov : ∀ d ∈ dets, (List.lookup d.label id2label).isSome) :
    carLoop id2label dets hc acc =
      .ok (hc || !(dets.filter (isCarB id2label)).isEmpty,
           acc ++ (dets.filter (isCarB id2label)).map mkCarDetection) := by
  induction dets generalizing hc acc with
  | nil => simp [carLoop]
  | cons d rest ih =>
    have hd : (List.lookup d.label id2label).isSome :=
      hcov d (List.mem_cons_self _ _)
    obtain ⟨name, hname⟩ := Option.isSome_iff_exists.mp hd
    have hrest : ∀ x ∈ rest, (List.lookup x.label id2label).isSome :=
      fun x hx => hcov x (List.mem_cons_of_mem _ hx)
    by_cases hcar : name = "car"
    · subst hcar
      have hcarB : isCarB id2label d = true := by simp [isCarB, hname]
      simp only [carLoop, hname, if_pos rfl, ih true _ hrest,
        List.filter_cons, hcarB]
      simp [mkCarDetection]
    · have hcarB : isCarB id2label d = false := by simp [isCarB, hname, hcar]
      simp only [carLoop, hname, if_neg hcar, ih hc acc hrest,
        List.filter_cons, hcarB]
      simp

/-- Whenever the loop succeeds starting from a state where the flag equals
non-emptiness of the accumulator, the final flag equals non-emptiness of the
final list. -/
theorem carLoop_fst_iff (id2label : List (ℕ × String))
    (dets : List RawDetection) :
    ∀ (hc : Bool) (acc : List CarDetection) (out : Bool × List CarDetection),
      (hc = true ↔ acc ≠ []) →
      carLoop id2label dets hc acc = .ok out →
      (out.1 = true ↔ out.2 ≠ []) := by
  induction dets with
  | nil =>
    intro hc acc out hinv h
    simp only [carLoop, Except.ok.injEq] at h
    subst h
    exact hinv
  | cons d rest ih =>
    intro hc acc out hinv h
    cases hlk : List.lookup d.label id2label with
    | none =>
      simp only [carLoop, hlk] at h
      exact absurd h (by simp)
    | some name =>
      simp only [carLoop, hlk] at h
      by_cases hcar : name = "car"
      · rw [if_pos hcar] at h
        exact ih true _ out (by simp) h
      · rw [if_neg hcar] at h
        exact ih hc acc out hinv h

/-- Specialization of `carLoop_eq_of_cov` to the loop's initial state. -/
theorem extractCars_eq_of_cov (id2label : List (ℕ × String))
    (dets : List RawDetection)
    (hcov : ∀ d ∈ dets, (List.lookup d.label id2label).isSome) :
    extractCars id2label dets =
      .ok (!(dets.filter (isCarB id2label)).isEmpty,
           (dets.filter (isCarB id2label)).map mkCarDetection) := by
  simpa [extractCars] using carLoop_eq_of_cov id2label dets false [] hcov

/-- Whenever extraction succeeds, the flag equals non-emptiness of the
output list. -/
theorem extractCars_fst_iff (id2label : List (ℕ × String))
    (dets : List RawDetection) (out : Bool × List CarDetection)
    (h : extractCars id2label dets = .ok out) :
    out.1 = true ↔ out.2 ≠ [] :=
  carLoop_fst_iff id2label dets false [] out (by simp) h

/-- Whenever `detect_cars` succeeds, the flag equals non-emptiness of the
returned detections list. -/
theorem detect_cars_fst_iff {Image : Type} (self : CarDetector)
    (fs : FileSystem) (decode : String → Except String Image)
    (infer : Image → ℚ → List RawDetection) (image_path : String)
    (out : Bool × List CarDetection)
    (h : self.detect_cars fs decode infer image_path = .ok out) :
    out.1 = true ↔ out.2 ≠ [] := by
  unfold CarDetector.detect_cars at h
  split at h
  · cases hdec : decode image_path with
    | error e => rw [hdec] at h; exact absurd h (by simp)
    | ok image =>
      rw [hdec] at h
      exact extractCars_fst_iff _ _ out h
  · exact absurd h (by simp)

/-- The temp-file cleanup of the handlers removes the temp path. -/
theorem cleanupTemp_not_mem (fs : FileSystem) (tmp_path : String) :
    tmp_path ∉ cleanupTemp fs tmp_path := by
  unfold cleanupTemp
  split
  · simp [List.mem_filter]
  · assumption

/-! ### Concrete fixtures used by witness theorems -/

/-- Vocabulary fixture (the mock `id2label` used by the repository's own
tests). -/
def vocab0 : List (ℕ × String) :=
  [(0, "person"), (1, "bicycle"), (2, "car"), (3, "motorcycle")]

/-- A car-labeled raw detection fixture. -/
def rawCar0 : RawDetection :=
  { score := mkRat 95 100, label := 2, box := [100, 100, 200, 200] }

/-- A second car-labeled raw detection fixture. -/
def rawCar1 : RawDetection :=
  { score := mkRat 87 100, label := 2, box := [300, 300, 400, 400] }

/-- A person-labeled raw detection fixture. -/
def rawPerson0 : RawDetection :=
  { score := mkRat 92 100, label := 0, box := [500, 500, 600, 600] }

/-- Detector fixture with the default configuration. -/
def det0 : CarDetector :=
  { model_name := "facebook/detr-resnet-50", confidence_threshold := mkRat 9 10,
    id2label := vocab0, model_loaded := true }

/-- Trivial image decoder fixture (always succeeds). -/
def dec0 : String → Except String Unit := fun _ => .ok ()

/-- Inference fixture returning two cars and one person. -/
def inf0 : Unit → ℚ → List RawDetection := fun _ _ => [rawCar0, rawCar1, rawPerson0]

/-- An upload fixture with an image content type. -/
def imgFile0 : UploadFile :=
  { filename := "test.jpg", content_type := "image/jpeg", content := [] }

/-- An upload fixture with a text content type. -/
def txtFile0 : UploadFile :=
  { filename := "test.txt", content_type := "text/plain", content := [] }

/-! ### Claim theorems -/

/-- C2: for every raw-detection sequence and every vocabulary covering its
label ids, the car filter succeeds with an output no longer than the input,
and every output record's label is exactly the literal string `"car"` (the
branch tests case-sensitive equality against `"car"`, so no synonym can be
emitted). -/
theorem car_filter_length_le_and_label_car (id2label : List (ℕ × String))
    (dets : List RawDetection)
    (hcov : ∀ d ∈ dets, (List.lookup d.label id2label).isSome) :
    ∃ out, extractCars id2label dets = .ok out ∧
      out.2.length ≤ dets.length ∧
      ∀ c ∈ out.2, c.label = "car" := by
  refine ⟨_, extractCars_eq_of_cov id2label dets hcov, ?_, ?_⟩
  · simpa using List.length_filter_le (isCarB id2label) dets
  · intro c hc
    simp only [List.mem_map] at hc
    obtain ⟨d, _, rfl⟩ := hc
    rfl

/-- Witness for C2 at the three-detection fixture. -/
theorem car_filter_length_le_and_label_car_witness :
    ∃ out, extractCars vocab0 [rawCar0, rawCar1, rawPerson0] = .ok out ∧
      out.2.length ≤ 3 ∧
      ∀ c ∈ out.2, c.label = "car" :=
  car_filter_length_le_and_label_car vocab0 [rawCar0, rawCar1, rawPerson0]
    (by decide)

/-- C3: the car filter's output is exactly the car-labeled raw detections
of the input, formatted, in their original relative order (a filter-then-map
with no re-sorting and no deduplication), and each emitted record carries
its source's confidence and box and is tagged `"xyxy"`. -/
theorem car_filter_order_preservation (id2label : List (ℕ × String))
    (dets : List RawDetection)
    (hcov : ∀ d ∈ dets, (List.lookup d.label id2label).isSome) :
    ∃ out, extractCars id2label dets = .ok out ∧
      out.2 = (dets.filter (isCarB id2label)).map mkCarDetection ∧
      ∀ d : RawDetection,
        mkCarDetection d =
          { label := "car", confidence := d.score, bbox := d.box,
            bbox_format := "xyxy" } :=
  ⟨_, extractCars_eq_of_cov id2label dets hcov, rfl, fun _ => rfl⟩

/-- Witness for C3 at the three-detection fixture. -/
theorem car_filter_order_preservation_witness :
    ∃ out, extractCars vocab0 [rawCar0, rawCar1, rawPerson0] = .ok out ∧
      out.2 =
        ([rawCar0, rawCar1, rawPerson0].filter (isCarB vocab0)).map
          mkCarDetection ∧
      ∀ d : RawDetection,
        mkCarDetection d =
          { label := "car", confidence := d.score, bbox := d.box,
            bbox_format := "xyxy" } :=
  car_filter_order_preservation vocab0 [rawCar0, rawCar1, rawPerson0]
    (by decide)

/-- C4: whenever `detect_cars` returns a result, its `has_cars` component is
true exactly when its detections list is non-empty; no other condition makes
it true. -/
theorem detect_cars_has_cars_iff_nonempty {Image : Type} (self : CarDetector)
    (fs : FileSystem) (decode : String → Except String Image)
    (infer : Image → ℚ → List RawDetection) (image_path : String)
    (out : Bool × List CarDetection)
    (h : self.detect_cars fs decode infer image_path = .ok out) :
    out.1 = true ↔ out.2 ≠ [] :=
  detect_cars_fst_iff self fs decode infer image_path out h

/-- Witness for C4 at a concrete run that finds two cars. -/
theorem detect_cars_has_cars_iff_nonempty_witness :
    true = true ↔
      ([mkCarDetection rawCar0, mkCarDetection rawCar1] :
        List CarDetection) ≠ [] :=
  detect_cars_has_cars_iff_nonempty det0 ["upload.jpg"] dec0 inf0 "upload.jpg"
    (true, [mkCarDetection rawCar0, mkCarDetection rawCar1]) (by decide)

/-- C1 counterexample: with the detector unloaded (`None`) and a
`"text/plain"` upload, `POST /detect-car` answers 500 "Model not loaded" —
not the 400 "File must be an image" the claim requires — and so does
`POST /detect-car-simple`: the readiness check precedes the content-type
check in both handlers. -/
theorem detect_car_unready_nonimage_counterexample :
    (api.detect_car none dec0 inf0 [] "/tmp/u.jpg"
        txtFile0).1 = .httpError 500 "Model not loaded" ∧
    (api.detect_car none dec0 inf0 [] "/tmp/u.jpg"
        txtFile0).1 ≠ .httpError 400 "File must be an image" ∧
    (api.detect_car_simple none dec0 inf0 [] "/tmp/u.jpg"
        txtFile0).1 = .httpError 500 "Model not loaded" ∧
    (api.detect_car_simple none dec0 inf0 [] "/tmp/u.jpg"
        txtFile0).1 ≠ .httpError 400 "File must be an image" := by
  refine ⟨rfl, ?_, rfl, ?_⟩ <;> decide

/-- C1 amended: a non-image content type yields 400 "File must be an image"
whenever the detector is loaded; when the detector is `None` the readiness
check fires first and both endpoints answer 500 "Model not loaded"
instead. -/
theorem nonimage_rejection_order {Image : Type} (det : CarDetector)
    (decode : String → Except String Image)
    (infer : Image → ℚ → List RawDetection)
    (fs : FileSystem) (tmp_path : String) (file : UploadFile)
    (h : strStartsWith file.content_type "image/" = false) :
    api.detect_car (some det) decode infer fs tmp_path file =
      (.httpError 400 "File must be an image", fs) ∧
    api.detect_car_simple (some det) decode infer fs tmp_path file =
      (.httpError 400 "File must be an image", fs) ∧
    api.detect_car none decode infer fs tmp_path file =
      (.httpError 500 "Model not loaded", fs) ∧
    api.detect_car_simple none decode infer fs tmp_path
        file =
      (.httpError 500 "Model not loaded", fs) := by
  refine ⟨?_, ?_, rfl, rfl⟩ <;>
    simp [api.detect_car, api.detect_car_simple, h]

/-- Witness for the amended C1 at the text upload fixture. -/
theorem nonimage_rejection_order_witness :
    api.detect_car (some det0) dec0 inf0 [] "/tmp/u.jpg" txtFile0 =
      (.httpError 400 "File must be an image", []) ∧
    api.detect_car_simple (some det0) dec0 inf0 [] "/tmp/u.jpg" txtFile0 =
      (.httpError 400 "File must be an image", []) ∧
    api.detect_car none dec0 inf0 [] "/tmp/u.jpg" txtFile0 =
      (.httpError 500 "Model not loaded", []) ∧
    api.detect_car_simple none dec0 inf0 [] "/tmp/u.jpg"
        txtFile0 =
      (.httpError 500 "Model not loaded", []) :=
  nonimage_rejection_order det0 dec0 inf0 [] "/tmp/u.jpg" txtFile0 (by decide)

/-- C5: when detector construction fails at startup, the module-level handle
is `None` (the process keeps serving), and every request to `/model-info`,
`/detect-car` and `/detect-car-simple` answers 500 "Model not loaded",
independently of the decoder, the inference function, the filesystem and the
upload — i.e. without any decoding or filtering work, and leaving the
filesystem untouched. -/
theorem model_load_failure_uniform_500 {Image : Type} (msg : String)
    (decode : String → Except String Image)
    (infer : Image → ℚ → List RawDetection)
    (fs : FileSystem) (tmp_path : String) (file : UploadFile) :
    initDetector (.error msg) = none ∧
    api.get_model_info (initDetector (.error msg)) =
      .httpError 500 "Model not loaded" ∧
    api.detect_car (initDetector (.error msg)) decode infer fs tmp_path
        file =
      (.httpError 500 "Model not loaded", fs) ∧
    api.detect_car_simple (initDetector (.error msg)) decode infer fs
        tmp_path file =
      (.httpError 500 "Model not loaded", fs) :=
  ⟨rfl, rfl, rfl, rfl⟩

/-- C6: the confidence threshold enters the pipeline only at the adapter
step — `detect_cars` hands the filter exactly the raw detections produced at
threshold `self.confidence_threshold` — and the filter emits a detection
exactly when its resolved label is `"car"`, by a predicate that never reads
the confidence (replacing a detection's score leaves its membership
unchanged). -/
theorem threshold_only_in_adapter {Image : Type} (self : CarDetector)
    (fs : FileSystem) (decode : String → Except String Image)
    (infer : Image → ℚ → List RawDetection) (image_path : String)
    (image : Image)
    (hfs : image_path ∈ fs) (hdec : decode image_path = .ok image)
    (hcov : ∀ d ∈ infer image self.confidence_threshold,
      (List.lookup d.label self.id2label).isSome) :
    self.detect_cars fs decode infer image_path =
      extractCars self.id2label (infer image self.confidence_threshold) ∧
    ∃ out,
      extractCars self.id2label (infer image self.confidence_threshold) =
        .ok out ∧
      out.2 =
        ((infer image self.confidence_threshold).filter
          (isCarB self.id2label)).map mkCarDetection ∧
      (∀ d : RawDetection,
        isCarB self.id2label d = true ↔
          List.lookup d.label self.id2label = some "car") ∧
      (∀ (d : RawDetection) (c : ℚ),
        isCarB self.id2label { d with score := c } =
          isCarB self.id2label d) := by
  refine ⟨?_, _, extractCars_eq_of_cov _ _ hcov, rfl, ?_, ?_⟩
  · unfold CarDetector.detect_cars
    rw [if_pos hfs, hdec]
  · intro d
    unfold isCarB
    cases List.lookup d.label self.id2label <;> simp
  · intro d c
    rfl

/-- Witness for C6 at a concrete pipeline run. -/
theorem threshold_only_in_adapter_witness :
    det0.detect_cars ["upload.jpg"] dec0 inf0 "upload.jpg" =
      extractCars det0.id2label (inf0 () det0.confidence_threshold) ∧
    ∃ out,
      extractCars det0.id2label (inf0 () det0.confidence_threshold) =
        .ok out ∧
      out.2 =
        ((inf0 () det0.confidence_threshold).filter
          (isCarB det0.id2label)).map mkCarDetection ∧
      (∀ d : RawDetection,
        isCarB det0.id2label d = true ↔
          List.lookup d.label det0.id2label = some "car") ∧
      (∀ (d : RawDetection) (c : ℚ),
        isCarB det0.id2label { d with score := c } =
          isCarB det0.id2label d) :=
  threshold_only_in_adapter det0 ["upload.jpg"] dec0 inf0 "upload.jpg" ()
    (by decide) (by decide) (by decide)

/-- C7: `detect_car_simple` is exactly the first projection of
`detect_cars` on the same path — it succeeds with the `has_cars` component
and fails with exactly the same exception — and consequently, whenever both
upload endpoints answer 200 for the same request, the simple endpoint's
`car_detected` equals the full endpoint's `has_cars`. -/
theorem detect_car_simple_refinement {Image : Type} (self : CarDetector)
    (fs : FileSystem) (decode : String → Except String Image)
    (infer : Image → ℚ → List RawDetection) (image_path : String)
    (tmp_path : String) (file : UploadFile) :
    self.detect_car_simple fs decode infer image_path =
      (self.detect_cars fs decode infer image_path).map Prod.fst ∧
    (∀ e : PyError,
      self.detect_cars fs decode infer image_path = .error e ↔
        self.detect_car_simple fs decode infer image_path = .error e) ∧
    (∀ (bodyF : DetectCarBody) (bodyS : DetectCarSimpleBody),
      (api.detect_car (some self) decode infer fs tmp_path file).1 =
        .ok bodyF →
      (api.detect_car_simple (some self) decode infer fs tmp_path file).1 =
        .ok bodyS →
      bodyS.car_detected = bodyF.has_cars) := by
  refine ⟨rfl, ?_, ?_⟩
  · intro e
    unfold CarDetector.detect_car_simple
    cases self.detect_cars fs decode infer image_path <;>
      simp [Except.map]
  · intro bodyF bodyS hF hS
    simp only [api.detect_car, api.detect_car_simple] at hF hS
    cases hct : strStartsWith file.content_type "image/" with
    | false =>
      rw [hct] at hF
      exact absurd hF (by simp)
    | true =>
      rw [hct] at hF hS
      simp only [Bool.not_true, Bool.false_eq_true, if_false] at hF hS
      cases hres : self.detect_cars (fs ++ [tmp_path]) decode infer
          tmp_path with
      | ok res =>
        have hsimple : self.detect_car_simple (fs ++ [tmp_path]) decode
            infer tmp_path = .ok res.1 := by
          unfold CarDetector.detect_car_simple
          rw [hres]
          rfl
        rw [hres] at hF
        rw [hsimple] at hS
        simp only [HandlerResult.ok.injEq] at hF hS
        rw [← hF, ← hS]
      | error e =>
        rw [hres] at hF
        exact absurd hF (by simp)

/-- Witness for C7 at the two-car fixture run. -/
theorem detect_car_simple_refinement_witness :
    ({ filename := "test.jpg", car_detected := true } :
        DetectCarSimpleBody).car_detected =
      ({ filename := "test.jpg", has_cars := true, car_count := 2,
         detections := [mkCarDetection rawCar0, mkCarDetection rawCar1],
         model_name := "facebook/detr-resnet-50",
         confidence_threshold := mkRat 9 10 } : DetectCarBody).has_cars :=
  (detect_car_simple_refinement det0 [] dec0 inf0 "up.jpg" "up.jpg"
      imgFile0).2.2 _ _ (by decide) (by decide)

/-- C8: whenever a temp file is created for an upload (the detector is
loaded and the content type passed the check), the temp path is absent from
the filesystem returned by the handler — for every outcome of
`detect_cars`, success or exception, on both endpoints. -/
theorem temp_file_always_removed {Image : Type} (det : CarDetector)
    (decode : String → Except String Image)
    (infer : Image → ℚ → List RawDetection)
    (fs : FileSystem) (tmp_path : String) (file : UploadFile)
    (h : strStartsWith file.content_type "image/" = true) :
    tmp_path ∉ (api.detect_car (some det) decode infer fs tmp_path file).2 ∧
    tmp_path ∉
      (api.detect_car_simple (some det) decode infer fs tmp_path file).2 := by
  constructor
  · simp only [api.detect_car, h, Bool.not_true, Bool.false_eq_true,
      if_false]
    cases det.detect_cars (fs ++ [tmp_path]) decode infer tmp_path <;>
      exact cleanupTemp_not_mem _ _
  · simp only [api.detect_car_simple, h, Bool.not_true, Bool.false_eq_true,
      if_false]
    cases det.detect_car_simple (fs ++ [tmp_path]) decode infer tmp_path <;>
      exact cleanupTemp_not_mem _ _

/-- Witness for C8: the fixture upload leaves no temp file behind. -/
theorem temp_file_always_removed_witness :
    "/tmp/u.jpg" ∉
      (api.detect_car (some det0) dec0 inf0 ["a.jpg"] "/tmp/u.jpg"
        imgFile0).2 ∧
    "/tmp/u.jpg" ∉
      (api.detect_car_simple (some det0) dec0 inf0 ["a.jpg"] "/tmp/u.jpg"
        imgFile0).2 :=
  temp_file_always_removed det0 dec0 inf0 ["a.jpg"] "/tmp/u.jpg" imgFile0
    (by decide)

/-- C9: in every 200 response of `POST /detect-car`, `car_count` is the
length of `detections`, and `has_cars` is true exactly when `car_count` is
positive. -/
theorem detect_car_count_consistency {Image : Type}
    (detector : Option CarDetector)
    (decode : String → Except String Image)
    (infer : Image → ℚ → List RawDetection)
    (fs : FileSystem) (tmp_path : String) (file : UploadFile)
    (body : DetectCarBody)
    (h : (api.detect_car detector decode infer fs tmp_path file).1 =
      .ok body) :
    body.car_count = body.detections.length ∧
    (body.has_cars = true ↔ 0 < body.car_count) := by
  cases detector with
  | none => exact absurd h (by simp [api.detect_car])
  | some det =>
    simp only [api.detect_car] at h
    cases hct : strStartsWith file.content_type "image/" with
    | false =>
      rw [hct] at h
      exact absurd h (by simp)
    | true =>
      rw [hct] at h
      simp only [Bool.not_true, Bool.false_eq_true, if_false] at h
      cases hres : det.detect_cars (fs ++ [tmp_path]) decode infer
          tmp_path with
      | ok res =>
        rw [hres] at h
        simp only [HandlerResult.ok.injEq] at h
        have hflag : res.1 = true ↔ res.2 ≠ [] :=
          detect_cars_fst_iff det (fs ++ [tmp_path]) decode infer tmp_path
            res hres
        rw [← h]
        refine ⟨rfl, ?_⟩
        simpa [List.length_pos] using hflag
      | error e =>
        rw [hres] at h
        exact absurd h (by simp)

/-- Witness for C9 at the two-car fixture run. -/
theorem detect_car_count_consistency_witness :
    ({ filename := "test.jpg", has_cars := true, car_count := 2,
       detections := [mkCarDetection rawCar0, mkCarDetection rawCar1],
       model_name := "facebook/detr-resnet-50",
       confidence_threshold := mkRat 9 10 } : DetectCarBody).car_count =
      ({ filename := "test.jpg", has_cars := true, car_count := 2,
         detections := [mkCarDetection rawCar0, mkCarDetection rawCar1],
         model_name := "facebook/detr-resnet-50",
         confidence_threshold := mkRat 9 10 } :
          DetectCarBody).detections.length ∧
    (({ filename := "test.jpg", has_cars := true, car_count := 2,
        detections := [mkCarDetection rawCar0, mkCarDetection rawCar1],
        model_name := "facebook/detr-resnet-50",
        confidence_threshold := mkRat 9 10 } :
          DetectCarBody).has_cars = true ↔
      0 <
        ({ filename := "test.jpg", has_cars := true, car_count := 2,
           detections := [mkCarDetection rawCar0, mkCarDetection rawCar1],
           model_name := "facebook/detr-resnet-50",
           confidence_threshold := mkRat 9 10 } : DetectCarBody).car_count) :=
  detect_car_count_consistency (some det0) dec0 inf0 [] "up.jpg" imgFile0 _
    (by decide)

/-- C10: for a path absent from the filesystem, `detect_cars` raises
`FileNotFoundError` with the source's message, the result does not depend on
the decoder or the inference function (neither is consulted), and the
detector state after the call is the state before it. -/
theorem detect_cars_missing_file {Image : Type} (self : CarDetector)
    (fs : FileSystem)
    (decode decode' : String → Except String Image)
    (infer infer' : Image → ℚ → List RawDetection) (image_path : String)
    (h : image_path ∉ fs) :
    self.detect_cars_run fs decode infer image_path =
      (.error (.fileNotFound ("Image file not found: " ++ image_path)),
       self) ∧
    self.detect_cars_run fs decode infer image_path =
      self.detect_cars_run fs decode' infer' image_path := by
  have h1 : ∀ (dec : String → Except String Image)
      (inf : Image → ℚ → List RawDetection),
      self.detect_cars fs dec inf image_path =
        .error (.fileNotFound ("Image file not found: " ++ image_path)) := by
    intro dec inf
    unfold CarDetector.detect_cars
    rw [if_neg h]
  constructor
  · unfold CarDetector.detect_cars_run
    rw [h1]
  · unfold CarDetector.detect_cars_run
    rw [h1, h1]

/-- Witness for C10 at a concrete missing path, with two observably
different decoders and inference functions. -/
theorem detect_cars_missing_file_witness :
    det0.detect_cars_run [] dec0 inf0 "missing.jpg" =
      (.error (.fileNotFound ("Image file not found: " ++ "missing.jpg")),
       det0) ∧
    det0.detect_cars_run [] dec0 inf0 "missing.jpg" =
      det0.detect_cars_run []
        (fun _ => (.error "decoder unavailable" : Except String Unit))
        (fun _ _ => []) "missing.jpg" :=
  detect_cars_missing_file det0 [] dec0
    (fun _ => .error "decoder unavailable") inf0 (fun _ _ => [])
    "missing.jpg" (by decide)
